import Mathlib

/-!
Verification development for the OctoPrint RepRap protocol core
(`src/octoprint/comm/protocol/reprap/__init__.py` and
`src/octoprint/comm/protocol/reprap/util/__init__.py`).

The Python code is shallowly embedded: pure fragments become Lean
functions, stateful methods become explicit state-passing functions,
byte strings become lists of naturals (byte values), Python dicts become
functions into `Option`, and Python sets become `Finset`.
-/

/-! ## Bytes and the checksum wire format -/

/-- The bytes of an ASCII string (each `Char` rendered as its code point;
the protocol only ever checksums ASCII data). -/
def strBytes (s : String) : List Nat :=
  s.toList.map Char.toNat

/-- `str(n).encode("ascii")`: the decimal rendering of a natural number as bytes. -/
def natDecimalBytes (n : Nat) : List Nat :=
  strBytes (toString n)

/-- XOR over every byte of a byte string, as used for the RepRap checksum. -/
def xorChecksum (bs : List Nat) : Nat :=
  bs.foldl (fun a b => a ^^^ b) 0

/-- `_do_send_without_checksum(data)`: the transport write is `data + b"\n"`.
We model the transport write by returning the written bytes. -/
def do_send_without_checksum (data : List Nat) : List Nat :=
  data ++ [10]

/-- `_do_send_with_checksum(line, line_number)`: builds
`b"N" + str(line_number) + b" " + line`, XORs its bytes into a checksum,
appends `b"*" + str(checksum)` and hands the result to
`_do_send_without_checksum`. -/
def do_send_with_checksum (line : List Nat) (line_number : Nat) : List Nat :=
  let command_to_send := strBytes "N" ++ natDecimalBytes line_number ++ strBytes " " ++ line
  let checksum := xorChecksum command_to_send
  do_send_without_checksum (command_to_send ++ strBytes "*" ++ natDecimalBytes checksum)

/-! ## Line history (`LineHistory` in `util/__init__.py`) -/

/-- `LineHistory`: the ordered list of `(line, line_number)` entries plus the
line-number lookup dict (modelled as a function into `Option`), bounded by `max`. -/
structure LineHistory where
  max : Nat
  lines : List (String × Option Nat)
  lookupFn : Nat → Option String

/-- `LineHistory._cleanup`'s `while` loop: pop entries from the front while the
list is longer than `max`, deleting each popped entry's line number from the
lookup dict. -/
def LineHistory.cleanupAux (maxLen : Nat) :
    List (String × Option Nat) → (Nat → Option String) →
    List (String × Option Nat) × (Nat → Option String)
  | [], lk => ([], lk)
  | (l, ln) :: rest, lk =>
    if ((l, ln) :: rest).length ≤ maxLen then ((l, ln) :: rest, lk)
    else
      let lk' := match ln with
        | some n => fun k => if k = n then none else lk k
        | none => lk
      LineHistory.cleanupAux maxLen rest lk'

/-- `LineHistory.append(line, line_number)`: append the entry, record it in the
lookup dict when it has a line number, then run `_cleanup`. -/
def LineHistory.append (h : LineHistory) (line : String) (line_number : Option Nat) :
    LineHistory :=
  let lines := h.lines ++ [(line, line_number)]
  let lk := match line_number with
    | some n => fun k => if k = n then some line else h.lookupFn k
    | none => h.lookupFn
  let cleaned := LineHistory.cleanupAux h.max lines lk
  { h with lines := cleaned.1, lookupFn := cleaned.2 }

/-- `LineHistory.clear()`: empty the list and the lookup dict. -/
def LineHistory.clear (h : LineHistory) : LineHistory :=
  { h with lines := [], lookupFn := fun _ => none }

/-! ## Line-number state and the numbered-line send path -/

/-- The protocol state touched by the numbered-line send path and by the
`M110` sending handler: `_current_linenumber`, `_last_lines`, and the resend
bookkeeping (`resend_requested`, `resend_linenumber`, `resend_count` from
`_internal_flags`, and the send queue's `resend_active` flag). -/
structure ReprapLineState where
  current_linenumber : Nat
  last_lines : LineHistory
  resend_requested : Option Nat
  resend_linenumber : Option Nat
  resend_count : Option Nat
  send_queue_resend_active : Bool

/-- `_do_increment_and_send_with_checksum(line)`: under the line mutex, read
`_current_linenumber`, append the line to `_last_lines` under that number,
increment `_current_linenumber`, and send the numbered, checksummed line.
The whole body runs under `self._line_mutex`, so it is modelled as one atomic
state transformation; the returned byte list is the transport write. -/
def do_increment_and_send_with_checksum (s : ReprapLineState) (line : String) :
    ReprapLineState × List Nat :=
  let line_number := s.current_linenumber
  ({ s with
      last_lines := s.last_lines.append line (some line_number)
      current_linenumber := line_number + 1 },
   do_send_with_checksum (strBytes line) line_number)

/-- `_gcode_M110_sending(command)`: parse the target line number from the
command's `N` parameter (absent or zero both yield `0`, matching the Python
truthiness test plus `int()` parse), then under the line mutex set
`_current_linenumber` and clear `_last_lines`; finally reset the
`resend_linenumber` internal flag.  Nothing else is touched. -/
def gcode_M110_sending (s : ReprapLineState) (n : Option Nat) : ReprapLineState :=
  let new_line_number := match n with
    | some k => k
    | none => 0
  { s with
      current_linenumber := new_line_number
      last_lines := s.last_lines.clear
      resend_linenumber := none }

/-! ## Helper lemmas about `LineHistory.cleanupAux` -/

/-- `_cleanup` never removes the most recently appended entry as long as the
history's capacity is at least one: popping only happens from the front while
the list is still longer than `max`. -/
theorem LineHistory.cleanupAux_mem_last (maxLen : Nat) (hmax : 0 < maxLen) :
    ∀ (ls : List (String × Option Nat)) (x : String × Option Nat)
      (lk : Nat → Option String),
      x ∈ (LineHistory.cleanupAux maxLen (ls ++ [x]) lk).1 := by
  intro ls
  induction ls with
  | nil =>
    intro x lk
    rcases x with ⟨l, ln⟩
    simp only [List.nil_append, LineHistory.cleanupAux, List.length_singleton]
    rw [if_pos (Nat.one_le_iff_ne_zero.mpr (Nat.pos_iff_ne_zero.mp hmax))]
    simp
  | cons y ys ih =>
    intro x lk
    rw [List.cons_append]
    rcases y with ⟨l, ln⟩
    simp only [LineHistory.cleanupAux]
    by_cases hlen : ((l, ln) :: (ys ++ [x])).length ≤ maxLen
    · rw [if_pos hlen]
      exact List.mem_cons_of_mem _ (List.mem_append_right _ (List.mem_singleton.mpr rfl))
    · rw [if_neg hlen]
      exact ih x _

/-! ## Claim theorems for C1, C4, C5 -/

/-- C1: For every command sent with a checksum via the numbered-line path, the
textual line is appended to Line History under the value of
`current_linenumber` at the time of sending, `current_linenumber` is
incremented by exactly one, both in the same atomic step under the line
mutex, and the bytes written are the checksummed line numbered with that same
value; moreover (whenever the history capacity is positive, as it is in the
engine, which uses 50) the appended entry is still present afterwards. -/
theorem C1_increment_and_send_atomic (s : ReprapLineState) (line : String)
    (hmax : 0 < s.last_lines.max) :
    (do_increment_and_send_with_checksum s line).1.last_lines
        = s.last_lines.append line (some s.current_linenumber)
    ∧ (do_increment_and_send_with_checksum s line).1.current_linenumber
        = s.current_linenumber + 1
    ∧ (do_increment_and_send_with_checksum s line).2
        = do_send_with_checksum (strBytes line) s.current_linenumber
    ∧ (line, some s.current_linenumber)
        ∈ (do_increment_and_send_with_checksum s line).1.last_lines.lines := by
  refine ⟨rfl, rfl, rfl, ?_⟩
  show (line, some s.current_linenumber)
      ∈ (s.last_lines.append line (some s.current_linenumber)).lines
  unfold LineHistory.append
  exact LineHistory.cleanupAux_mem_last s.last_lines.max hmax s.last_lines.lines _ _

/-- Witness for C1 at a concrete state. -/
theorem C1_witness :
    (0 : Nat) < ({ max := 2, lines := [("G28", some 3)], lookupFn := fun _ => none
                  : LineHistory }).max
    ∧ (do_increment_and_send_with_checksum
        { current_linenumber := 4
          last_lines := { max := 2, lines := [("G28", some 3)], lookupFn := fun _ => none }
          resend_requested := none
          resend_linenumber := none
          resend_count := none
          send_queue_resend_active := false } "G1 X0").1.current_linenumber = 5 :=
  ⟨by decide,
    (C1_increment_and_send_atomic
      { current_linenumber := 4
        last_lines := { max := 2, lines := [("G28", some 3)], lookupFn := fun _ => none }
        resend_requested := none
        resend_linenumber := none
        resend_count := none
        send_queue_resend_active := false } "G1 X0" (by decide)).2.1⟩

/-- C5: the numbered line written to the transport is exactly
`N<linenumber> <payload>*<xor>` followed by a newline byte, where `<xor>` is
the XOR over every byte of `N<linenumber> <payload>` rendered in ASCII
decimal. -/
theorem C5_checksum_wire_format (payload : List Nat) (n : Nat) :
    do_send_with_checksum payload n
      = strBytes "N" ++ natDecimalBytes n ++ strBytes " " ++ payload
        ++ strBytes "*"
        ++ natDecimalBytes
            (xorChecksum (strBytes "N" ++ natDecimalBytes n ++ strBytes " " ++ payload))
        ++ [10] := by
  simp [do_send_with_checksum, do_send_without_checksum, List.append_assoc]

/-- C4 counterexample: after `M110 N7` passes the sending phase in a state
with an active resend window, `resend_requested` is still set and the send
queue's `resend_active` flag is still true — the claim that no resend
bookkeeping remains active afterwards is false on this input. -/
theorem C4_counterexample :
    ¬ ((gcode_M110_sending
          { current_linenumber := 5
            last_lines := { max := 50, lines := [("G28", some 4)], lookupFn := fun _ => none }
            resend_requested := some 3
            resend_linenumber := some 3
            resend_count := some 0
            send_queue_resend_active := true } (some 7)).resend_requested = none
        ∧ (gcode_M110_sending
          { current_linenumber := 5
            last_lines := { max := 50, lines := [("G28", some 4)], lookupFn := fun _ => none }
            resend_requested := some 3
            resend_linenumber := some 3
            resend_count := some 0
            send_queue_resend_active := true } (some 7)).send_queue_resend_active = false) := by
  intro h
  exact absurd h.1 (by simp [gcode_M110_sending])

/-- C4 (amended): when `M110 N<k>` passes the sending phase,
`current_linenumber` is set to `k`, Line History is emptied and
`resend_linenumber` is reset to `None`; the remaining resend bookkeeping
(`resend_requested`, `resend_count` and the send queue's `resend_active`
flag) is left unchanged. -/
theorem C4_M110_sending_effect (s : ReprapLineState) (k : Nat) :
    gcode_M110_sending s (some k)
      = { s with
            current_linenumber := k
            last_lines := s.last_lines.clear
            resend_linenumber := none } := rfl

/-! ## Send token (`SendToken` in `util/__init__.py`) -/

/-- The state of a `SendToken`: `_counter`, `_ignored` and the optional upper
bound `_max` inherited from `CountedEvent`. -/
structure SendToken where
  counter : Nat
  ignored : Nat
  maximum : Option Nat
deriving DecidableEq

/-- Modelled from the spec: `CountedEvent._internal_set` lives in
`octoprint.util`, which is not among the sources.  The spec describes the
Send Token as an "integer counter ≥ 0 with optional upper bound" where
`set()` clamps at the bound and `clear()` ends at `max(0, counter-1)`, so
`_internal_set` clamps its argument into `[0, max]`. -/
def CountedEvent.internal_set (maximum : Option Nat) (value : Int) : Nat :=
  match maximum with
  | some m => min value.toNat m
  | none => value.toNat

/-- `SendToken.set(ignore)`: bump `_ignored` when `ignore` is set, then
`_internal_set(counter + 1)`. -/
def SendToken.set (t : SendToken) (ignore : Bool) : SendToken :=
  { t with
      ignored := if ignore then t.ignored + 1 else t.ignored
      counter := CountedEvent.internal_set t.maximum ((t.counter : Int) + 1) }

/-- `SendToken.clear(completely)`: when `completely`, zero both fields.
Otherwise, when `_ignored > 0`, spend one ignore and `_internal_set(counter-1)`;
then — in either case — `_internal_set(counter-1)` again (the second call is
unconditional in the source, so the ignore path decrements twice). -/
def SendToken.clear (t : SendToken) (completely : Bool) : SendToken :=
  if completely then
    { t with counter := CountedEvent.internal_set t.maximum 0, ignored := 0 }
  else
    let t1 :=
      if t.ignored > 0 then
        { t with
            ignored := t.ignored - 1
            counter := CountedEvent.internal_set t.maximum ((t.counter : Int) - 1) }
      else t
    { t1 with counter := CountedEvent.internal_set t1.maximum ((t1.counter : Int) - 1) }

/-- `CountedEvent.blocked()`: the counter is zero. -/
def SendToken.blocked (t : SendToken) : Bool :=
  t.counter = 0

/-- C2 counterexample: in the state `counter = 2, ignored = 1, max = 10`,
`clear()` takes the counter to `0`, not to `1` — it is decremented twice, not
exactly once as the claim states. -/
theorem C2_counterexample :
    ¬ ((SendToken.clear { counter := 2, ignored := 1, maximum := some 10 } false).ignored = 0
        ∧ (SendToken.clear { counter := 2, ignored := 1, maximum := some 10 } false).counter = 1) := by
  decide

/-- C2 (amended): for a `SendToken` whose counter respects its bound,
`clear()` (without `completely`) decrements `ignored` by one (stopping at 0)
and decrements the counter **twice** when `ignored > 0` — once in the ignore
branch and once unconditionally — and otherwise sets the counter to
`max(0, counter - 1)`; each decrement is clamped at zero. -/
theorem C2_clear_effect (t : SendToken)
    (hbound : t.counter ≤ t.maximum.getD t.counter) :
    (t.clear false).ignored = t.ignored - 1
    ∧ (t.clear false).counter = t.counter - (if 0 < t.ignored then 2 else 1) := by
  simp only [SendToken.clear, Bool.false_eq_true, if_false, gt_iff_lt]
  by_cases hi : 0 < t.ignored
  · rw [if_pos hi, if_pos hi]
    refine ⟨rfl, ?_⟩
    cases hm : t.maximum with
    | none => simp only [CountedEvent.internal_set]; omega
    | some m =>
      rw [hm] at hbound
      simp only [Option.getD_some] at hbound
      simp only [CountedEvent.internal_set]
      omega
  · rw [if_neg hi, if_neg hi]
    refine ⟨by omega, ?_⟩
    cases hm : t.maximum with
    | none => simp only [CountedEvent.internal_set]; omega
    | some m =>
      rw [hm] at hbound
      simp only [Option.getD_some] at hbound
      simp only [CountedEvent.internal_set]
      omega

/-- Witness for C2 (amended) at `counter = 2, ignored = 1, max = 10`. -/
theorem C2_witness :
    ({ counter := 2, ignored := 1, maximum := some 10 } : SendToken).counter
        ≤ (({ counter := 2, ignored := 1, maximum := some 10 } : SendToken).maximum.getD
            ({ counter := 2, ignored := 1, maximum := some 10 } : SendToken).counter)
    ∧ ((SendToken.clear { counter := 2, ignored := 1, maximum := some 10 } false).ignored = 0
        ∧ (SendToken.clear { counter := 2, ignored := 1, maximum := some 10 } false).counter = 0) :=
  ⟨by decide,
    C2_clear_effect { counter := 2, ignored := 1, maximum := some 10 } (by decide)⟩

/-! ## Protocol states and the consecutive-timeout handler -/

/-- Modelled from the spec: `ProtocolState` lives in `octoprint.comm.protocol`,
which is not among the sources.  The spec enumerates the states and the
derived sets (operational = not disconnected; processing = STARTING,
PROCESSING, PAUSING, CANCELLING, RESUMING, FINISHING). -/
inductive ProtocolState where
  | DISCONNECTED
  | DISCONNECTED_WITH_ERROR
  | CONNECTING
  | CONNECTED
  | STARTING
  | PROCESSING
  | PAUSING
  | PAUSED
  | RESUMING
  | CANCELLING
  | FINISHING
  | ERROR
deriving DecidableEq

/-- Modelled from the spec: `ProtocolState.OPERATIONAL_STATES` — every state
that is not a disconnected one. -/
def ProtocolState.operational : ProtocolState → Bool
  | .DISCONNECTED => false
  | .DISCONNECTED_WITH_ERROR => false
  | _ => true

/-- The inputs `_on_comm_timeout` consults: the relevant `_internal_flags`
entries, the protocol state, the three `max_consecutive_timeouts` ceilings,
and whether the send token is blocked. -/
structure TimeoutContext where
  long_running_command : Bool
  state : ProtocolState
  max_idle : Nat
  max_printing : Nat
  max_long : Nat
  timeout_consecutive : Nat
  resend_requested : Option Nat
  heating : Bool
  clear_blocked : Bool
deriving DecidableEq

/-- What `_on_comm_timeout` decides to do after updating the counter:
each constructor is one of the mutually exclusive `if/elif` branches. -/
inductive TimeoutAction where
  | disconnectWithError
  | resendSameLine
  | finishHeatup
  | ignoreLongRunning
  | tickleWithM105
  | setClearToSend
  | nothing
deriving DecidableEq

/-- `_on_comm_timeout(line, lower_line)`: choose the applicable ceiling
(`long` if a long-running command is active, else `printing` in the
PROCESSING/PAUSING/CANCELLING states, else `idle`), increment
`timeout_consecutive`, and disconnect fatally when
`0 < consecutive_max < timeout_consecutive`; otherwise fall through the
resend / heatup / long-running / printing-tickle / blocked-token branches.
Returns the new counter and the chosen action. -/
def on_comm_timeout (c : TimeoutContext) : Nat × TimeoutAction :=
  let consecutive_max :=
    if c.long_running_command then c.max_long
    else if c.state = .PROCESSING ∨ c.state = .PAUSING ∨ c.state = .CANCELLING then
      c.max_printing
    else c.max_idle
  let counter := c.timeout_consecutive + 1
  let action :=
    if 0 < consecutive_max ∧ consecutive_max < counter then
      TimeoutAction.disconnectWithError
    else if c.resend_requested.isSome then TimeoutAction.resendSameLine
    else if c.heating then TimeoutAction.finishHeatup
    else if c.long_running_command then TimeoutAction.ignoreLongRunning
    else if c.state = .PROCESSING ∨ c.state = .PAUSED then TimeoutAction.tickleWithM105
    else if c.clear_blocked then TimeoutAction.setClearToSend
    else TimeoutAction.nothing
  (counter, action)

/-- The ceiling the claim designates: the `long` maximum when
`long_running_command` is set, else the `printing` maximum when the state is
PROCESSING, PAUSING or CANCELLING, else the `idle` maximum. -/
def applicableTimeoutCeiling (c : TimeoutContext) : Nat :=
  if c.long_running_command then c.max_long
  else if c.state = .PROCESSING ∨ c.state = .PAUSING ∨ c.state = .CANCELLING then
    c.max_printing
  else c.max_idle

/-- C3: every communication timeout increments the consecutive-timeout
counter, and the engine disconnects with a fatal error exactly when the
applicable ceiling is strictly positive and strictly less than the
incremented counter; in particular a ceiling of 0 never disconnects. -/
theorem C3_timeout_disconnect_iff (c : TimeoutContext) :
    (on_comm_timeout c).1 = c.timeout_consecutive + 1
    ∧ ((on_comm_timeout c).2 = TimeoutAction.disconnectWithError
        ↔ 0 < applicableTimeoutCeiling c
          ∧ applicableTimeoutCeiling c < c.timeout_consecutive + 1)
    ∧ (applicableTimeoutCeiling c = 0
        → (on_comm_timeout c).2 ≠ TimeoutAction.disconnectWithError) := by
  have hchain : (on_comm_timeout c).2 =
      if 0 < applicableTimeoutCeiling c
          ∧ applicableTimeoutCeiling c < c.timeout_consecutive + 1 then
        TimeoutAction.disconnectWithError
      else if c.resend_requested.isSome then TimeoutAction.resendSameLine
      else if c.heating then TimeoutAction.finishHeatup
      else if c.long_running_command then TimeoutAction.ignoreLongRunning
      else if c.state = .PROCESSING ∨ c.state = .PAUSED then TimeoutAction.tickleWithM105
      else if c.clear_blocked then TimeoutAction.setClearToSend
      else TimeoutAction.nothing := rfl
  have hiff : (on_comm_timeout c).2 = TimeoutAction.disconnectWithError
      ↔ 0 < applicableTimeoutCeiling c
          ∧ applicableTimeoutCeiling c < c.timeout_consecutive + 1 := by
    rw [hchain]
    by_cases h : 0 < applicableTimeoutCeiling c
        ∧ applicableTimeoutCeiling c < c.timeout_consecutive + 1
    · simp [h]
    · rw [if_neg h]
      simp only [h, iff_false]
      split <;> try simp
      split <;> try simp
      split <;> try simp
      split <;> try simp
      split <;> simp
  exact ⟨rfl, hiff, fun h0 hdis => by
    have := (hiff.mp hdis).1
    omega⟩

/-! ## Commands -/

/-- Modelled from the spec: command classification — a command is a G-code
command, an @-command, or plain text (`octoprint.comm.protocol.reprap.commands`
is not among the sources). -/
inductive CommandKind where
  | gcode
  | atcommand
  | text
deriving DecidableEq

/-- Modelled from the spec: the value-typed `Command` from
`octoprint.comm.protocol.reprap.commands` (not among the sources).  Every
command carries its textual `line`, an optional `type` used for queue
deduplication, and a `tags` set. -/
structure Command where
  kind : CommandKind
  line : String
  type : Option String
  tags : Finset String
deriving DecidableEq

/-- Modelled from the spec: `to_command(line, type=..., tags=...)` builds the
value-typed command for a textual line — an @-command when the line starts
with `@`, a G-code command when it starts with a letter, plain text
otherwise. -/
def classifyLine (line : String) : CommandKind :=
  match line.toList with
  | [] => .text
  | ch :: _ => if ch = '@' then .atcommand else if ch.isAlpha then .gcode else .text

/-- Modelled from the spec: `to_command` (see `classifyLine`). -/
def to_command (line : String) (type : Option String) (tags : Finset String) : Command :=
  { kind := classifyLine line, line := line, type := type, tags := tags }

/-- Python's `str.strip()`: drop leading and trailing whitespace (executable
on the character list, unlike `String.trim`). -/
def pyStrip (s : String) : String :=
  String.mk
    (((s.toList.dropWhile Char.isWhitespace).reverse.dropWhile Char.isWhitespace).reverse)

/-! ## The send loop body (C6) -/

/-- One entry of the send queue as unpacked by the send loop:
either a `SendQueueMarker` or a `(command, linenumber, on_sent, processed)`
tuple (`on_sent` modelled by whether a callback is present). -/
inductive SendQueueEntry where
  | marker
  | entry (command : Command) (linenumber : Option Nat) (has_on_sent : Bool)
      (processed : Bool)
deriving DecidableEq

/-- The externally visible actions of one iteration of `_send_loop`'s body,
in the order they are performed. -/
inductive SendLoopEffect where
  | ranMarkerCallback
  | wroteResend (command : Command) (linenumber : Nat)
  | wrote (command : Command)
  | processedSendingPhaseAt (command : Command)
  | ranOnSent
  | sentPhase (command : Command)
  | clearedToken
  | continuedSending
deriving DecidableEq

/-- The tail of the send loop body shared by the resend and the regular path:
run the per-command `on_sent` callback if present, run the `sent` phase, and
then use up a clear-to-send slot iff the command is a `GcodeCommand` or the
flavor's `unknown_requires_ack` is set, falling back to `continue_sending()`
otherwise. -/
def send_loop_after_write (unknown_requires_ack : Bool) (command : Command)
    (has_on_sent : Bool) : List SendLoopEffect :=
  (if has_on_sent then [SendLoopEffect.ranOnSent] else [])
    ++ [SendLoopEffect.sentPhase command]
    ++ (if command.kind = .gcode ∨ unknown_requires_ack then
          [SendLoopEffect.clearedToken]
        else [SendLoopEffect.continuedSending])

/-- One iteration of `_send_loop`'s body (after the queue `get`), with the
`sending`-phase rewriter passed in as a function (it includes external hooks).
Markers run their callback and tickle the queues; entries with a preassigned
line number are resends and are written directly; otherwise the command runs
the `sending` phase (unless already processed), is dropped when the phase
result is empty or the line is blank, @-commands run their sending handlers
without a transport write, and everything else is written and then goes
through `send_loop_after_write`.  A `sending`-phase result with more than one
entry trips the `assert len(results) == 1`, which the loop's exception guard
swallows. -/
def send_loop_body (unknown_requires_ack : Bool)
    (sendingPhase : Command → List Command) : SendQueueEntry → List SendLoopEffect
  | .marker => [.ranMarkerCallback, .continuedSending]
  | .entry command linenumber has_on_sent processed =>
    match linenumber with
    | some n =>
      SendLoopEffect.wroteResend command n
        :: send_loop_after_write unknown_requires_ack command has_on_sent
    | none =>
      let results := if processed then [command] else sendingPhase command
      match results with
      | [] => [.continuedSending]
      | [c] =>
        if pyStrip c.line = "" then [.continuedSending]
        else if c.kind = .atcommand then
          [.processedSendingPhaseAt c, .continuedSending]
        else
          SendLoopEffect.wrote c
            :: send_loop_after_write unknown_requires_ack c has_on_sent
      | _ => []

/-- C6: whenever the send loop body writes a command to the transport (either
the resend fast path or the regular path), it consumes one clear-to-send slot
iff the written command is a G-code command or `unknown_requires_ack` is set,
and otherwise calls `continue_sending()` instead. -/
theorem C6_token_consumption (unknown_requires_ack : Bool)
    (sendingPhase : Command → List Command) (entry : SendQueueEntry) (c : Command)
    (hw : SendLoopEffect.wrote c ∈ send_loop_body unknown_requires_ack sendingPhase entry
        ∨ ∃ n, SendLoopEffect.wroteResend c n
            ∈ send_loop_body unknown_requires_ack sendingPhase entry) :
    (SendLoopEffect.clearedToken ∈ send_loop_body unknown_requires_ack sendingPhase entry
        ↔ (c.kind = .gcode ∨ unknown_requires_ack = true))
    ∧ (¬ (c.kind = .gcode ∨ unknown_requires_ack = true)
        → SendLoopEffect.continuedSending
            ∈ send_loop_body unknown_requires_ack sendingPhase entry) := by
  cases entry with
  | marker =>
    exfalso
    rcases hw with h | ⟨n, h⟩ <;> simp [send_loop_body] at h
  | entry command linenumber has_on_sent processed =>
    cases linenumber with
    | some n =>
      have hc : c = command := by
        by_cases hack : command.kind = .gcode ∨ unknown_requires_ack = true <;>
          rcases hw with h | ⟨m, h⟩ <;>
          cases has_on_sent <;>
          simp [send_loop_body, send_loop_after_write, hack] at h <;>
          tauto
      subst hc
      by_cases hack : c.kind = .gcode ∨ unknown_requires_ack = true <;>
        cases has_on_sent <;>
        simp [send_loop_body, send_loop_after_write, hack]
    | none =>
      rcases hres : (if processed then [command] else sendingPhase command) with
        _ | ⟨c0, _ | ⟨c1, rest⟩⟩
      · exfalso
        rcases hw with h | ⟨m, h⟩ <;> simp [send_loop_body, hres] at h
      · by_cases hblank : pyStrip c0.line = ""
        · exfalso
          rcases hw with h | ⟨m, h⟩ <;> simp [send_loop_body, hres, hblank] at h
        · by_cases hat : c0.kind = .atcommand
          · exfalso
            rcases hw with h | ⟨m, h⟩ <;>
              simp [send_loop_body, hres, hblank, hat] at h
          · have hc : c = c0 := by
              by_cases hack : c0.kind = .gcode ∨ unknown_requires_ack = true <;>
                rcases hw with h | ⟨m, h⟩ <;>
                cases has_on_sent <;>
                simp [send_loop_body, hres, hblank, hat, send_loop_after_write,
                  hack] at h <;>
                tauto
            subst hc
            by_cases hack : c.kind = .gcode ∨ unknown_requires_ack = true <;>
              cases has_on_sent <;>
              simp [send_loop_body, hres, hblank, hat, send_loop_after_write, hack]
      · exfalso
        rcases hw with h | ⟨m, h⟩ <;> simp [send_loop_body, hres] at h

/-- A concrete G-code command used to witness C6. -/
def g28Command : Command :=
  { kind := .gcode, line := "G28", type := none, tags := ∅ }

/-- Witness for C6: sending a plain `G28` entry (no preassigned line number,
`unknown_requires_ack` off) writes it and consumes a clear-to-send slot. -/
theorem C6_witness :
    SendLoopEffect.wrote g28Command
        ∈ send_loop_body false (fun c => [c]) (.entry g28Command none false false)
    ∧ (SendLoopEffect.clearedToken
          ∈ send_loop_body false (fun c => [c]) (.entry g28Command none false false)
        ↔ (g28Command.kind = .gcode ∨ false = true)) := by
  have hmem : SendLoopEffect.wrote g28Command
      ∈ send_loop_body false (fun c => [c]) (.entry g28Command none false false) := by
    decide
  exact ⟨hmem,
    (C6_token_consumption false (fun c => [c]) (.entry g28Command none false false)
      g28Command (Or.inl hmem)).1⟩

/-! ## @-command handling (C7) -/

/-- The protocol-level transitions an @-command's built-in queuing handler can
trigger. -/
inductive AtCommandEffect where
  | pause_processing
  | cancel_processing
  | resume_processing
deriving DecidableEq

/-- `_atcommand_pause_queuing` / `_atcommand_cancel_queuing`
(aliased as `_atcommand_abort_queuing`) / `_atcommand_resume_queuing`:
trigger the matching state transition unless the command carries the tag of
the corresponding script (recursion guard).  Commands without a matching
built-in handler do nothing; only the `queuing` handlers exist for these. -/
def atcommand_builtin_handler (atcommand phase : String) (tags : Finset String) :
    List AtCommandEffect :=
  if phase = "queuing" then
    if atcommand = "pause" then
      if "script:afterPrintPaused" ∈ tags then [] else [.pause_processing]
    else if atcommand = "cancel" ∨ atcommand = "abort" then
      if "script:afterPrintCancelled" ∈ tags then [] else [.cancel_processing]
    else if atcommand = "resume" then
      if "script:beforePrintResumed" ∈ tags then [] else [.resume_processing]
    else []
  else []

/-- The Python value stored in `self._atcommand_hooks`.  In `__init__` the
assignment has a trailing comma, so the phase-keyed hook dict is wrapped in a
1-tuple instead of being the dict itself. -/
inductive AtCommandHookContainer where
  | tupleOfDict (d : String → List String)
  | dict (d : String → List String)

/-- Python subscription `container[phase]` with a string key: defined for a
dict, but a `TypeError` for a tuple. -/
def AtCommandHookContainer.subscript :
    AtCommandHookContainer → String → Except String (List String)
  | .tupleOfDict _, _ =>
    .error "TypeError: tuple indices must be integers or slices, not str"
  | .dict d, phase => .ok (d phase)

/-- The `_atcommand_hooks` container exactly as `__init__` builds it when no
plugins are registered: a 1-tuple wrapping the `queuing`/`sending` dict. -/
def reprap_atcommand_hooks : AtCommandHookContainer :=
  .tupleOfDict (fun _ => [])

/-- `_process_atcommand_phase(phase, command)`: bail out when streaming or for
phases other than `queuing`/`sending`; otherwise iterate
`self._atcommand_hooks[phase].items()` (each hook call individually guarded by
try/except — with no plugins registered the iteration is empty) and then run
the built-in `_atcommand_<command>_<phase>` handler, also guarded.  The
subscription itself is *not* inside any try/except, so its `TypeError`
escapes as an exception (`Except.error`). -/
def process_atcommand_phase (container : AtCommandHookContainer)
    (is_streaming : Bool) (phase atcommand : String) (tags : Finset String) :
    Except String (List AtCommandEffect) :=
  if is_streaming ∨ (phase ≠ "queuing" ∧ phase ≠ "sending") then .ok []
  else
    match container.subscript phase with
    | .error e => .error e
    | .ok _hooks => .ok (atcommand_builtin_handler atcommand phase tags)

/-- C7: the claim says `@pause` entering the queuing phase without the
`script:afterPrintPaused` tag triggers `pause_processing` — and indeed the
built-in handler would do so — but `_process_atcommand_phase` raises a
`TypeError` while subscripting the accidentally 1-tuple-wrapped
`_atcommand_hooks` container before any handler can run, so no transition is
triggered.  The same evaluation against a correctly dict-shaped container
shows the intended behaviour. -/
theorem C7_atcommand_hooks_type_error :
    process_atcommand_phase reprap_atcommand_hooks false "queuing" "pause" ∅
        = .error "TypeError: tuple indices must be integers or slices, not str"
    ∧ process_atcommand_phase (.dict (fun _ => [])) false "queuing" "pause" ∅
        = .ok [.pause_processing]
    ∧ atcommand_builtin_handler "pause" "queuing" ∅ = [.pause_processing] := by
  refine ⟨rfl, rfl, rfl⟩

/-! ## Command handler result normalization (C8) -/

/-- The inner `expand_tags(tags, tags_to_add)` helper of
`normalize_command_handler_result`: copy the tags and union in `tags_to_add`
when it is a (non-empty) set.  (A falsy empty set skips the union in Python,
which coincides with `tags ∪ ∅ = tags`.) -/
def expand_tags (tags : Finset String) (tags_to_add : Option (Finset String)) :
    Finset String :=
  match tags_to_add with
  | some ts => tags ∪ ts
  | none => tags

/-- One handler result entry, as the shapes `normalize_command_handler_result`
distinguishes: a replacement string, a replacement `Command`, a 1-, 2- or 3-tuple
(whose `command` slot may be `None`), or a tuple of unexpected length. -/
inductive HandlerEntry where
  | str (s : String)
  | cmd (hr : Command)
  | tup1 (command_line : Option String)
  | tup2 (command_line : Option String) (command_type : Option String)
  | tup3 (command_line : Option String) (command_type : Option String)
      (command_tags : Finset String)
  | tupOther
deriving DecidableEq

/-- The tuple arm of `normalize_command_handler_result`: after unpacking
(defaults `command_type = original.type`, `command_tags = original.tags`),
drop the entry when the command line is `None`; expand the tags only when the
line or the type differs from the original's; build the result with
`to_command`. -/
def normalize_tuple_entry (original : Command) (tags_to_add : Option (Finset String))
    (command_line : Option String) (command_type : Option String)
    (command_tags : Finset String) : List Command :=
  match command_line with
  | none => []
  | some l =>
    let command_tags :=
      if l ≠ original.line ∨ command_type ≠ original.type then
        expand_tags command_tags tags_to_add
      else command_tags
    [to_command l command_type command_tags]

/-- The per-entry body of `normalize_command_handler_result`'s loop.  `None`
entries are skipped; a string that differs from the original line becomes a
new command with expanded tags, an *equal* string re-appends the original
command unchanged; likewise for `Command` entries; tuples go through
`normalize_tuple_entry`; tuples of unexpected length are skipped. -/
def normalize_entry (original : Command) (tags_to_add : Option (Finset String)) :
    Option HandlerEntry → List Command
  | none => []
  | some (.str s) =>
    if s ≠ original.line then
      [to_command s original.type (expand_tags original.tags tags_to_add)]
    else [original]
  | some (.cmd hr) =>
    if hr ≠ original then
      [{ hr with tags := expand_tags original.tags tags_to_add }]
    else [original]
  | some (.tup1 command_line) =>
    normalize_tuple_entry original tags_to_add command_line original.type original.tags
  | some (.tup2 command_line command_type) =>
    normalize_tuple_entry original tags_to_add command_line command_type original.tags
  | some (.tup3 command_line command_type command_tags) =>
    normalize_tuple_entry original tags_to_add command_line command_type command_tags
  | some .tupOther => []

/-- The three shapes `handler_results` can have: `None`, a single non-list
entry (wrapped into a singleton list by the source), or a list of entries. -/
inductive HandlerResults where
  | noResult
  | single (r : HandlerEntry)
  | list (rs : List (Option HandlerEntry))

/-- `normalize_command_handler_result(command, handler_results, tags_to_add)`:
`None` passes the original through, a non-list entry is wrapped, and a list is
processed entry by entry (with `command` reset to the original after each
entry). -/
def normalize_command_handler_result (command : Command)
    (handler_results : HandlerResults) (tags_to_add : Option (Finset String)) :
    List Command :=
  match handler_results with
  | .noResult => [command]
  | .single r => normalize_entry command tags_to_add (some r)
  | .list rs => rs.flatMap (normalize_entry command tags_to_add)

/-- The tags each kind of handler result entry actually produces: the
original's tags unioned with `tags_to_add` only when the entry *changes* the
command (different line, different `Command` value, or tuple with different
line or type); unchanged entries keep the original's tags without the union,
and a 3-tuple supplies its own base tags. -/
def expectedResultTags (original : Command) (tags_to_add : Option (Finset String)) :
    HandlerEntry → Finset String
  | .str s =>
    if s = original.line then original.tags
    else expand_tags original.tags tags_to_add
  | .cmd hr =>
    if hr = original then original.tags
    else expand_tags original.tags tags_to_add
  | .tup1 command_line =>
    if command_line = some original.line then original.tags
    else expand_tags original.tags tags_to_add
  | .tup2 command_line command_type =>
    if command_line = some original.line ∧ command_type = original.type then original.tags
    else expand_tags original.tags tags_to_add
  | .tup3 command_line command_type command_tags =>
    if command_line = some original.line ∧ command_type = original.type then command_tags
    else expand_tags command_tags tags_to_add
  | .tupOther => ∅

/-- Helper: every command produced by one entry carries exactly
`expectedResultTags` for that entry. -/
theorem normalize_entry_tags (original : Command) (tta : Option (Finset String))
    (e : HandlerEntry) (c : Command)
    (hc : c ∈ normalize_entry original tta (some e)) :
    c.tags = expectedResultTags original tta e := by
  cases e with
  | str s =>
    by_cases hs : s = original.line
    · simp [normalize_entry, hs] at hc
      subst hc
      simp [expectedResultTags, hs]
    · simp [normalize_entry, hs] at hc
      subst hc
      simp [expectedResultTags, hs, to_command]
  | cmd hr =>
    by_cases hh : hr = original
    · simp [normalize_entry, hh] at hc
      subst hc
      simp [expectedResultTags, hh]
    · simp [normalize_entry, hh] at hc
      subst hc
      simp [expectedResultTags, hh]
  | tup1 command_line =>
    cases command_line with
    | none => simp [normalize_entry, normalize_tuple_entry] at hc
    | some l =>
      by_cases hchg : l ≠ original.line ∨ (original.type ≠ original.type)
      · simp only [normalize_entry, normalize_tuple_entry, hchg, if_true,
          List.mem_singleton] at hc
        subst hc
        have hl : ¬ (some l = some original.line) := by
          rcases hchg with h | h
          · simpa using h
          · exact absurd rfl h
        simp [expectedResultTags, hl, to_command]
      · simp only [normalize_entry, normalize_tuple_entry, hchg, if_false,
          List.mem_singleton] at hc
        subst hc
        have hl : some l = some original.line := by
          push_neg at hchg
          simp [hchg.1]
        simp [expectedResultTags, hl, to_command]
  | tup2 command_line command_type =>
    cases command_line with
    | none => simp [normalize_entry, normalize_tuple_entry] at hc
    | some l =>
      by_cases hchg : l ≠ original.line ∨ command_type ≠ original.type
      · simp only [normalize_entry, normalize_tuple_entry, hchg, if_true,
          List.mem_singleton] at hc
        subst hc
        have hl : ¬ (l = original.line ∧ command_type = original.type) := by
          tauto
        simp [expectedResultTags, hl, to_command]
      · simp only [normalize_entry, normalize_tuple_entry, hchg, if_false,
          List.mem_singleton] at hc
        subst hc
        push_neg at hchg
        simp [expectedResultTags, hchg.1, hchg.2, to_command]
  | tup3 command_line command_type command_tags =>
    cases command_line with
    | none => simp [normalize_entry, normalize_tuple_entry] at hc
    | some l =>
      by_cases hchg : l ≠ original.line ∨ command_type ≠ original.type
      · simp only [normalize_entry, normalize_tuple_entry, hchg, if_true,
          List.mem_singleton] at hc
        subst hc
        have hl : ¬ (l = original.line ∧ command_type = original.type) := by
          tauto
        simp [expectedResultTags, hl, to_command]
      · simp only [normalize_entry, normalize_tuple_entry, hchg, if_false,
          List.mem_singleton] at hc
        subst hc
        push_neg at hchg
        simp [expectedResultTags, hchg.1, hchg.2, to_command]
  | tupOther => simp [normalize_entry] at hc

/-- C8 (amended): each command in the normalized result list carries tags
equal to `expectedResultTags` for its entry — the original command's tags
unioned with `tags_to_add` exactly when the entry changes the command
(a string different from the original line, a `Command` different from the
original, or a tuple whose line or type differs); entries equal to the
original keep the original's tags without the union, and a 3-tuple supplies
its own base tags in place of the original's. -/
theorem C8_result_tags (original : Command) (tags_to_add : Option (Finset String))
    (e : HandlerEntry) (c : Command)
    (hc : c ∈ normalize_command_handler_result original (.single e) tags_to_add) :
    c.tags = expectedResultTags original tags_to_add e :=
  normalize_entry_tags original tags_to_add e c hc

/-- The original command of the C8 scenarios: `M105` carrying tag `tag1`. -/
def m105Command : Command :=
  { kind := .gcode, line := "M105", type := none, tags := {"tag1"} }

/-- C8 counterexample: a handler that returns the *same* line `"M105"` (with
`tags_to_add = {"tag3"}`) yields the original command with tags `{"tag1"}`,
which is not `{"tag1"} ∪ {"tag3"}` — the claim fails for result entries equal
to the original command. -/
theorem C8_counterexample :
    m105Command ∈ normalize_command_handler_result m105Command
        (.list [some (.str "M105")]) (some {"tag3"})
    ∧ m105Command.tags ≠ m105Command.tags ∪ {"tag3"} := by
  constructor
  · simp [normalize_command_handler_result, normalize_entry, m105Command]
  · intro h
    have h3 : "tag3" ∈ m105Command.tags := by
      rw [h]
      simp
    simp [m105Command] at h3

/-- Witness for C8 (amended): a handler replacing `M105` by `M110` with
`tags_to_add = {"tag3"}` produces a command tagged `{"tag1"} ∪ {"tag3"}`. -/
theorem C8_witness :
    to_command "M110" none (expand_tags {"tag1"} (some {"tag3"}))
        ∈ normalize_command_handler_result m105Command (.single (.str "M110"))
            (some {"tag3"})
    ∧ (to_command "M110" none (expand_tags {"tag1"} (some {"tag3"}))).tags
        = expectedResultTags m105Command (some {"tag3"}) (.str "M110") := by
  have hmem : to_command "M110" none (expand_tags {"tag1"} (some {"tag3"}))
      ∈ normalize_command_handler_result m105Command (.single (.str "M110"))
          (some {"tag3"}) := by
    simp [normalize_command_handler_result, normalize_entry, m105Command]
  exact ⟨hmem, C8_result_tags m105Command (some {"tag3"}) (.str "M110") _ hmem⟩

/-! ## Temperature records (C9) -/

/-- A temperature slot: `(actual, target)`, either part possibly unset.
Temperatures are carried opaquely; the record logic never computes on them,
so they are modelled as integers. -/
abbrev TempTuple := Option Int × Option Int

/-- `TemperatureRecord`: per-tool dict (modelled as a function into `Option`)
plus the `bed` and `chamber` tuples. -/
structure TemperatureRecord where
  tools : Nat → Option TempTuple
  bed : TempTuple
  chamber : TempTuple

/-- `TemperatureRecord._to_new_tuple(current, actual, target)`: an invalid or
missing `current` counts as `(None, None)` (the source's isinstance/length
guard plus the callers' `.get(tool, (None, None))` default); with both
updates `None` the current tuple is kept; otherwise the `None` side keeps its
old component. -/
def TemperatureRecord.to_new_tuple (current : Option TempTuple)
    (actual target : Option Int) : TempTuple :=
  let curr := current.getD (none, none)
  if actual = none ∧ target = none then curr
  else if actual = none then (curr.1, target)
  else if target = none then (actual, curr.2)
  else (actual, target)

/-- `TemperatureRecord.set_tool(tool, actual, target)`. -/
def TemperatureRecord.set_tool (r : TemperatureRecord) (tool : Nat)
    (actual target : Option Int) : TemperatureRecord :=
  { r with tools := fun t =>
      if t = tool then some (TemperatureRecord.to_new_tuple (r.tools tool) actual target)
      else r.tools t }

/-- `TemperatureRecord.set_bed(actual, target)`. -/
def TemperatureRecord.set_bed (r : TemperatureRecord)
    (actual target : Option Int) : TemperatureRecord :=
  { r with bed := TemperatureRecord.to_new_tuple (some r.bed) actual target }

/-- `TemperatureRecord.set_chamber(actual, target)`. -/
def TemperatureRecord.set_chamber (r : TemperatureRecord)
    (actual target : Option Int) : TemperatureRecord :=
  { r with chamber := TemperatureRecord.to_new_tuple (some r.chamber) actual target }

/-- The stored tuple for a tool slot, with the dict's `(None, None)` default. -/
def TemperatureRecord.tool_tuple (r : TemperatureRecord) (tool : Nat) : TempTuple :=
  (r.tools tool).getD (none, none)

/-- C9: for every tool slot, bed and chamber, setting only `actual` preserves
the stored `target` component, and setting only `target` preserves the stored
`actual` component. -/
theorem C9_partial_update_frame (r : TemperatureRecord) (tool : Nat) (a tg : Int) :
    ((r.set_tool tool (some a) none).tool_tuple tool).2 = (r.tool_tuple tool).2
    ∧ ((r.set_tool tool none (some tg)).tool_tuple tool).1 = (r.tool_tuple tool).1
    ∧ (r.set_bed (some a) none).bed.2 = r.bed.2
    ∧ (r.set_bed none (some tg)).bed.1 = r.bed.1
    ∧ (r.set_chamber (some a) none).chamber.2 = r.chamber.2
    ∧ (r.set_chamber none (some tg)).chamber.1 = r.chamber.1 := by
  refine ⟨?_, ?_, ?_, ?_, ?_, ?_⟩ <;>
    simp [TemperatureRecord.set_tool, TemperatureRecord.set_bed,
      TemperatureRecord.set_chamber, TemperatureRecord.tool_tuple,
      TemperatureRecord.to_new_tuple]

/-! ## The `ok` receive handler (C10) -/

/-- The state `_on_comm_ok` reads and writes: the relevant `_internal_flags`
entries, the protocol state, the resend-ok watchdog, and the send token. -/
structure OkHandlerState where
  ignore_ok : Int
  state : ProtocolState
  resend_ok_timer : Bool
  ok_timeout : Nat
  busy_detected : Bool
  long_running_command : Bool
  former_tool : Option Nat
  current_tool : Nat
  heating : Bool
  heating_start : Option Nat
  heating_lost : Nat
  resend_requested : Option Nat
  clear_to_send : SendToken
deriving DecidableEq

/-- The send-path actions `_on_comm_ok` can trigger beyond its own state. -/
inductive OkEffect where
  | sendNextFromResend
  | continueSending
deriving DecidableEq

/-- `_finish_heatup()`: when heating, account the lost time (monotonic clock
modelled as a `Nat` passed in) and clear both heatup flags. -/
def finish_heatup (now : Nat) (s : OkHandlerState) : OkHandlerState :=
  if s.heating then
    let s1 := match s.heating_start with
      | some hs => { s with heating_lost := s.heating_lost + (now - hs),
                            heating_start := none }
      | none => s
    { s1 with heating := false }
  else s

/-- `_on_comm_ok(wait=...)`: when `ignore_ok > 0`, decrement it (clamped at
zero) and return immediately.  Otherwise: CONNECTING flips to CONNECTED and
returns; the resend-ok watchdog is cancelled; `ok_timeout` is refreshed from
the busy/normal communication timeout (passed in precomputed, as
`_get_timeout` reads the wall clock); the send token is `set()`;
`long_running_command` is reset; a truthy `former_tool` (Python truthiness:
tool 0 and `None` are both falsy) is restored into `current_tool`; heatup
accounting is finished; and if the state is operational the next resend line
is serviced or `continue_sending()` is triggered. -/
def on_comm_ok (now timeout_normal timeout_busy : Nat) (s : OkHandlerState)
    (wait : Bool) : OkHandlerState × List OkEffect :=
  if 0 < s.ignore_ok then
    let i := s.ignore_ok - 1
    let i := if i < 0 then 0 else i
    ({ s with ignore_ok := i }, [])
  else if s.state = .CONNECTING then
    ({ s with state := .CONNECTED }, [])
  else
    let s1 := { s with resend_ok_timer := false }
    let s2 := { s1 with
      ok_timeout := if s1.busy_detected then timeout_busy else timeout_normal }
    let s3 := { s2 with clear_to_send := s2.clear_to_send.set false }
    let s4 := { s3 with long_running_command := false }
    let s5 :=
      if s4.former_tool.getD 0 ≠ 0 then
        { s4 with current_tool := s4.former_tool.getD 0, former_tool := none }
      else s4
    let s6 := finish_heatup now s5
    if ¬ s6.state.operational then (s6, [])
    else match s6.resend_requested with
      | some _ => (s6, [OkEffect.sendNextFromResend])
      | none => (s6, [OkEffect.continueSending])

/-- `_on_comm_ignore_ok()`: arm the receive path to drop the next `ok`. -/
def on_comm_ignore_ok (s : OkHandlerState) : OkHandlerState :=
  { s with ignore_ok := s.ignore_ok + 1 }

/-- C10: whenever the `ok` handler runs with `ignore_ok > 0`, its only effect
is to decrement `ignore_ok` by one (floored at zero) and return: the send
token is not set, the protocol state does not change, no resend line is
serviced, no sending is continued, and the long-running-command, former-tool
and heatup fields all stay as they were. -/
theorem C10_ignore_ok_frame (now timeout_normal timeout_busy : Nat)
    (s : OkHandlerState) (wait : Bool) (h : 0 < s.ignore_ok) :
    on_comm_ok now timeout_normal timeout_busy s wait
      = ({ s with ignore_ok := s.ignore_ok - 1 }, []) := by
  have hnn : ¬ (s.ignore_ok - 1 < 0) := by omega
  simp [on_comm_ok, h, hnn]

/-- Witness for C10 at a concrete state with `ignore_ok = 2`. -/
theorem C10_witness :
    (0 : Int) < (2 : Int)
    ∧ on_comm_ok 100 30 60
        { ignore_ok := 2
          state := .PROCESSING
          resend_ok_timer := true
          ok_timeout := 7
          busy_detected := true
          long_running_command := true
          former_tool := some 1
          current_tool := 0
          heating := true
          heating_start := some 50
          heating_lost := 0
          resend_requested := some 4
          clear_to_send := { counter := 1, ignored := 0, maximum := some 10 } } false
      = ({ ignore_ok := 1
           state := .PROCESSING
           resend_ok_timer := true
           ok_timeout := 7
           busy_detected := true
           long_running_command := true
           former_tool := some 1
           current_tool := 0
           heating := true
           heating_start := some 50
           heating_lost := 0
           resend_requested := some 4
           clear_to_send := { counter := 1, ignored := 0, maximum := some 10 } }, []) :=
  ⟨by decide,
    C10_ignore_ok_frame 100 30 60
      { ignore_ok := 2
        state := .PROCESSING
        resend_ok_timer := true
        ok_timeout := 7
        busy_detected := true
        long_running_command := true
        former_tool := some 1
        current_tool := 0
        heating := true
        heating_start := some 50
        heating_lost := 0
        resend_requested := some 4
        clear_to_send := { counter := 1, ignored := 0, maximum := some 10 } } false
      (by decide)⟩
